import Mathlib

set_option maxRecDepth 8000

namespace RfpRag

/-!
Shallow embedding of the retrieval-and-answer pipeline of the repository
(`src/utils/document_processor.py`, `src/utils/search.py`,
`src/utils/answer_formatter.py`).  Python strings are modelled as `List Char`
(code points), Python ints and floats as exact `ℤ`/`ℚ` values, raised
exceptions as the `.error` case of `Except String`.  External collaborators
(the OpenAI clients and the Qdrant store) enter as explicit arguments
recording the outcome of each call.
-/

/-- Python slice-index normalization for a sequence of length `n`: a negative
index counts from the end, and the result is clamped into `[0, n]`. -/
def pyIdx (n : ℕ) (i : ℤ) : ℕ :=
  if i < 0 then (i + n).toNat else min i.toNat n

/-- Python slice `t[a:b]` on a string modelled as a list of characters. -/
def pySlice (t : List Char) (a b : ℤ) : List Char :=
  (t.take (pyIdx t.length b)).drop (pyIdx t.length a)

/-- Occurrence test: does `sub` occur in `t` starting at position `i`? -/
def occursAt (t sub : List Char) (i : ℕ) : Bool :=
  decide ((t.drop i).take sub.length = sub)

/-- Python `t.rfind(sub, a, b)`: the largest index `i` such that `sub` occurs
at `i` and lies entirely inside the slice `t[a:b]`; `-1` when there is none. -/
def pyRfind (t sub : List Char) (a b : ℤ) : ℤ :=
  let lo := pyIdx t.length a
  let hi := pyIdx t.length b
  ((List.range (t.length + 1)).filter
      (fun i => decide (lo ≤ i) && decide (i + sub.length ≤ hi) && occursAt t sub i)).foldl
    (fun m i => max m (i : ℤ)) (-1)

/-- Paragraph separator `"\n\n"` searched for by `chunk_text`
(document_processor.py line 146). -/
def paragraphSep : List Char := ['\n', '\n']

/-- Sentence separator `". "` searched for by `chunk_text`
(document_processor.py line 151). -/
def sentenceSep : List Char := ['.', ' ']

/-- End offset chosen by one iteration of the scan loop of
`DocumentProcessor.chunk_text` (document_processor.py lines 142-153):
`end = min(start + chunk_size, len(text))`; when `end < len(text)` the end is
moved back to the last paragraph break, else to just past the last sentence
break, whenever that break lies strictly beyond `start + 0.5 * chunk_size`.
The float arithmetic `start + 0.5 * chunk_size` is modelled exactly over `ℚ`. -/
def chunkEnd (t : List Char) (cs start : ℤ) : ℤ :=
  let e0 : ℤ := min (start + cs) (t.length : ℤ)
  if e0 < (t.length : ℤ) then
    let pb := pyRfind t paragraphSep start e0
    if pb ≠ -1 ∧ (start : ℚ) + (1/2 : ℚ) * (cs : ℚ) < (pb : ℚ) then pb
    else
      let sb := pyRfind t sentenceSep start e0
      if sb ≠ -1 ∧ (start : ℚ) + (1/2 : ℚ) * (cs : ℚ) < (sb : ℚ) then sb + 1
      else e0
  else e0

/-- The `while start < len(text)` loop of `chunk_text`
(document_processor.py lines 141-156) with an explicit fuel bound: each
iteration appends `text[start:end]` and sets `start = end - overlap`.  The
loop has no exit other than its guard, so `none` for every fuel bound means
the Python loop never terminates. -/
def chunkLoop : ℕ → List Char → ℤ → ℤ → ℤ → List (List Char) →
    Option (List (List Char))
  | 0, _, _, _, _, _ => none
  | fuel + 1, t, cs, ov, start, acc =>
    if start < (t.length : ℤ) then
      chunkLoop fuel t cs ov (chunkEnd t cs start - ov)
        (acc ++ [pySlice t start (chunkEnd t cs start)])
    else
      some acc

/-- `DocumentProcessor.chunk_text(text, chunk_size, overlap)`
(document_processor.py lines 134-162), as the fuel-indexed loop started at
offset `0` with no chunks accumulated. -/
def chunk_text (fuel : ℕ) (t : List Char) (cs ov : ℤ) :
    Option (List (List Char)) :=
  chunkLoop fuel t cs ov 0 []

/-- Python `int(x)` applied to a (here exact, rational) float value:
truncation toward zero. -/
def pyInt (q : ℚ) : ℤ := if 0 ≤ q then ⌊q⌋ else ⌈q⌉

/-- `AnswerFormatter.add_confidence_indicators` (answer_formatter.py lines
88-99): the visual confidence category label. -/
def add_confidence_indicators (confidence : ℚ) : String :=
  if confidence ≥ 0.8 then "🟢 High confidence"
  else if confidence ≥ 0.5 then "🟡 Medium confidence"
  else "🔴 Low confidence"

/-- Input dictionary of `format_for_display`, as produced by
`format_results` (answer_formatter.py lines 51-56): answer text, per-source
summaries and confidence. -/
structure FormattedResults where
  answer : String
  sources : List (List (String × String))
  confidence : ℚ

/-- Output dictionary of `format_for_display`: a copy of the input with the
two display fields added. -/
structure DisplayData where
  answer : String
  sources : List (List (String × String))
  confidence : ℚ
  confidence_indicator : String
  confidence_pct : String

/-- `AnswerFormatter.format_for_display` (answer_formatter.py lines 101-117):
copies the formatted results and adds the confidence indicator and the
percentage string built by the f-string from `int(confidence * 100)` with a
percent sign appended.  The typed model has no failure path, so the `except`
branch of the source (answer_formatter.py lines 115-117) is unreachable. -/
def format_for_display (fr : FormattedResults) : DisplayData :=
  { answer := fr.answer
    sources := fr.sources
    confidence := fr.confidence
    confidence_indicator := add_confidence_indicators fr.confidence
    confidence_pct := toString (pyInt (fr.confidence * 100)) ++ "%" }

/-- Model of a Python value appearing in search hits and result
dictionaries. -/
inductive PyVal where
  | str : String → PyVal
  | num : ℚ → PyVal
  | dict : List (String × PyVal) → PyVal
  | list : List PyVal → PyVal

/-- Lookup in a Python dict modelled as an association list. -/
def dictGet (d : List (String × PyVal)) (k : String) : Option PyVal :=
  (d.find? (fun p => p.1 == k)).map Prod.snd

/-- Python subscript `v[k]` with a string key: a `KeyError` when a dict lacks
the key, a `TypeError` on any non-dict value. -/
def PyVal.getItem : PyVal → String → Except String PyVal
  | .dict d, k =>
    match dictGet d k with
    | some v => .ok v
    | none => .error ("KeyError: " ++ k)
  | .str _, _ => .error "TypeError: string indices must be integers"
  | .num _, _ => .error "TypeError: value is not subscriptable"
  | .list _, _ => .error "TypeError: list indices must be integers"

/-- Substring test backing Python `k in s` on strings. -/
def strContains (s k : List Char) : Bool :=
  (List.range (s.length + 1)).any (fun i => occursAt s k i)

/-- Python membership `k in v` for a string key: key lookup on dicts,
substring test on strings, element equality on lists, a `TypeError` on
numbers. -/
def PyVal.contains : PyVal → String → Except String Bool
  | .dict d, k => .ok (dictGet d k).isSome
  | .str s, k => .ok (strContains s.toList k.toList)
  | .list l, k =>
    .ok (l.any fun v => match v with | .str s => s == k | _ => false)
  | .num _, _ => .error "TypeError: argument is not iterable"

/-- Numeric coercion demanded by the `:.2f` format specifier and the
confidence arithmetic; a `TypeError` on non-numeric values. -/
def PyVal.toRat : PyVal → Except String ℚ
  | .num q => .ok q
  | _ => .error "TypeError: unsupported operand type"

/-- Rendering of an interpolated value inside an f-string; the rendering of
non-string values is abstracted, as no claim depends on it. -/
def pyStr : PyVal → String
  | .str s => s
  | .num q => toString q
  | .dict _ => "dict"
  | .list _ => "list"

/-- Two-decimal rendering of a relevance score, standing for the format
specifier `.2f` of search.py line 161 (exact on the rationals used here; the
digits are not load-bearing for any claim). -/
def fmt2 (q : ℚ) : String :=
  let n := round (q * 100)
  let a := n.natAbs
  (if n < 0 then "-" else "") ++ toString (a / 100) ++ "." ++
    (if a % 100 < 10 then "0" else "") ++ toString (a % 100)

/-- One per-hit block of the grounding context built by
`generate_answer_from_results` (search.py lines 155-161): the source header,
the optional question and answer lines, and the relevance-score line.  Each
subscript may raise, and the raise propagates out of the block. -/
def contextBlock (i : ℕ) (result : PyVal) : Except String String := do
  let payload ← result.getItem "payload"
  let hasQ ← payload.contains "question"
  let qline ←
    if hasQ then do
      let v ← payload.getItem "question"
      pure ("Question: " ++ pyStr v ++ "\n")
    else pure ""
  let hasA ← payload.contains "answer"
  let aline ←
    if hasA then do
      let v ← payload.getItem "answer"
      pure ("Answer: " ++ pyStr v ++ "\n")
    else pure ""
  let score ← result.getItem "score"
  let s ← score.toRat
  pure ("Source " ++ toString (i + 1) ++ ":\n" ++ qline ++ aline ++
    "Relevance Score: " ++ fmt2 s ++ "\n\n")

/-- Per-hit blocks of the `for i, result in enumerate(search_results)` loop
(search.py line 155), collected in order from index `i`; the first raised
exception aborts the loop. -/
def contextList : ℕ → List PyVal → Except String (List String)
  | _, [] => .ok []
  | i, r :: rs => do
    let b ← contextBlock i r
    let bs ← contextList (i + 1) rs
    pure (b :: bs)

/-- Grounding context of `generate_answer_from_results` (search.py lines
154-161): concatenation of the per-hit blocks in ranked order. -/
def buildContext (search_results : List PyVal) : Except String String := do
  let blocks ← contextList 0 search_results
  pure (String.join blocks)

/-- Instruction prompt assembled by `generate_answer_from_results`
(search.py lines 164-183); wording without load for any claim is kept only
approximately. -/
def buildPrompt (query context : String) : String :=
  "You are an RFP (Request for Proposal) answering assistant. " ++
  "Use the provided context from a semantic search to answer the question " ++
  "accurately. Only use information from the provided context.\n\n" ++
  "User Question: " ++ query ++ "\n\n" ++
  "Context from search results:\n" ++ context ++ "\n\n" ++
  "Instructions:\n" ++
  "1. Answer the question directly and precisely\n" ++
  "2. If multiple sources provide relevant information, synthesize them\n" ++
  "3. If information is incomplete, acknowledge it in your response\n" ++
  "4. Include any relevant dates, certifications, or specific details " ++
  "mentioned in the context\n" ++
  "5. Do not make up information that is not explicitly stated in the " ++
  "context\n\nYour answer:"

/-- Body of the `try:` block of `SearchEngine.generate_answer_from_results`
(search.py lines 147-208): the early empty-hits return, the context and
prompt construction, the completion call — `complete` is the outcome of the
OpenAI chat call — and the confidence computation
`(top_relevance * 0.7) + (source_diversity * 0.3)` with
`source_diversity = min(len(search_results) / 3, 1.0)`; the float constants
are modelled exactly over `ℚ`.  An `.error` is an exception raised inside the
`try:` block. -/
def genBody (complete : Except String String) (query : String)
    (search_results : List PyVal) : Except String (String × ℚ) := do
  if search_results.isEmpty then
    return ("No relevant information found.", 0)
  let context ← buildContext search_results
  let _prompt := buildPrompt query context
  let response ← complete
  let top : ℚ ←
    match search_results.head? with
    | some r => do
      let s ← r.getItem "score"
      s.toRat
    | none => pure 0
  let source_diversity : ℚ := min ((search_results.length : ℚ) / 3) 1
  let confidence : ℚ := top * (7/10) + source_diversity * (3/10)
  return (response, confidence)

/-- `SearchEngine.generate_answer_from_results` (search.py lines 142-215):
the `try/except` wrapper around the body.  Any exception raised inside is
caught and converted into the degraded answer dictionary with confidence 0.0
(search.py lines 210-215); the returned Python dict is modelled as an
association list, so the function is total and never propagates a failure. -/
def generate_answer_from_results (complete : Except String String)
    (query : String) (search_results : List PyVal) : List (String × PyVal) :=
  match genBody complete query search_results with
  | .ok (ans, conf) =>
    [("generated_answer", .str ans), ("confidence", .num conf)]
  | .error e =>
    [("generated_answer", .str ("Error generating answer: " ++ e)),
     ("confidence", .num 0)]

/-- Well-formed search hit in the shape produced by `SearchEngine.search`
(search.py lines 128-134): a dict with an id, a numeric score and a payload
dict of string metadata. -/
def mkHit (s : ℚ) (payload : List (String × String)) : PyVal :=
  .dict [("id", .num 0), ("score", .num s),
    ("payload", .dict (payload.map fun p => (p.1, .str p.2)))]

/-- Point handed to the Qdrant upsert by `index_document`
(search.py lines 78-87). -/
structure PointStruct where
  id : ℤ
  vector : List ℚ
  payload : List (String × String)

/-- `SearchEngine.index_document` (search.py lines 65-93).  `embed` is the
outcome of `get_text_embedding` on the document text, `get_collection` the
outcome of the points-count query (`.ok n` meaning the collection reports
`points_count = n`; a failure of that query alone is swallowed and the id
falls back to 1).  The result is the returned id together with the point
list handed to `upsert`; an `.error` is an exception propagating to the
caller. -/
def index_document (embed : Except String (List ℚ))
    (get_collection : Except String ℕ) (metadata : List (String × String))
    (doc_id : Option ℤ) : Except String (ℤ × List PointStruct) := do
  let embedding ← embed
  let id : ℤ :=
    match doc_id with
    | some i => i
    | none =>
      match get_collection with
      | .ok info => (info : ℤ) + 1
      | .error _ => 1
  return (id, [⟨id, embedding, metadata⟩])

/-- `DocumentProcessor.process_uploaded_file` (document_processor.py lines
107-132), modelled on its temporary-file frame effect.  `extract` is the
outcome of `extract_text` on the staged file and `removeOk` tells whether
the `os.remove`/`os.rmdir` calls would succeed.  The returned boolean states
whether the staged temp file still exists after the call: the cleanup block
(lines 122-127) runs only after a successful extraction and its own failure
is merely logged, while an extraction exception propagates through the outer
`except`/`raise` (lines 130-132) with no cleanup at all. -/
def process_uploaded_file (extract : Except String String) (removeOk : Bool) :
    Except String String × Bool :=
  match extract with
  | .ok text => (.ok text, if removeOk then false else true)
  | .error e => (.error e, true)

/-! Theorems. -/

/-- Reduction of `chunkLoop` at a successor fuel value. -/
theorem chunkLoop_succ_eq (n : ℕ) (t : List Char) (cs ov start : ℤ)
    (acc : List (List Char)) :
    chunkLoop (n + 1) t cs ov start acc =
      if start < (t.length : ℤ) then
        chunkLoop n t cs ov (chunkEnd t cs start - ov)
          (acc ++ [pySlice t start (chunkEnd t cs start)])
      else some acc := rfl

/-- Reduction of `chunkLoop` when the loop guard holds. -/
theorem chunkLoop_succ (n : ℕ) (t : List Char) (cs ov start : ℤ)
    (acc : List (List Char)) (h : start < (t.length : ℤ)) :
    chunkLoop (n + 1) t cs ov start acc =
      chunkLoop n t cs ov (chunkEnd t cs start - ov)
        (acc ++ [pySlice t start (chunkEnd t cs start)]) := by
  rw [chunkLoop_succ_eq, if_pos h]

/-- Once the scan reaches a state `s` below the text length that the loop
body maps back to itself, the loop never terminates: every fuel bound is
exhausted. -/
theorem chunkLoop_fixed (t : List Char) (cs ov s : ℤ)
    (hs : s < (t.length : ℤ)) (hfix : chunkEnd t cs s - ov = s) :
    ∀ (fuel : ℕ) (acc : List (List Char)),
      chunkLoop fuel t cs ov s acc = none := by
  intro fuel
  induction fuel with
  | zero => intro acc; rfl
  | succ n ih =>
    intro acc
    rw [chunkLoop_succ n t cs ov s acc hs, hfix]
    exact ih _

/-- Claim C1: the claim states that `chunk_text(T, max_size, overlap)`
terminates for every text and every `0 ≤ overlap < max_size`.  In fact for
`T = "abc"`, `max_size = 10`, `overlap = 2` the loop reaches
`start = end - overlap = 1 < len(T)` with `end = len(T)`, a state its body
maps back to itself, so the loop runs forever: the fuel-indexed model
returns `none` for every fuel bound. -/
theorem chunk_text_loops_c1 (fuel : ℕ) :
    chunk_text fuel ("abc".toList) 10 2 = none := by
  cases fuel with
  | zero => rfl
  | succ n =>
    rw [chunk_text, chunkLoop_succ n _ 10 2 0 [] (by decide),
      show chunkEnd ("abc".toList) 10 0 - 2 = 1 from by decide]
    exact chunkLoop_fixed _ 10 2 1 (by decide) (by decide) n _

/-- Claim C2: the claim states that a text shorter than `max_size` yields
exactly one chunk equal to the whole text.  For `T = "hi"`, `max_size = 10`,
`overlap = 1` (valid parameters, `len(T) = 2 < 10`) the loop appends `"hi"`,
then cycles forever at `start = 1` re-appending the tail `"i"`; no chunk
list is ever returned. -/
theorem chunk_text_short_loops_c2 (fuel : ℕ) :
    chunk_text fuel ("hi".toList) 10 1 = none := by
  cases fuel with
  | zero => rfl
  | succ n =>
    rw [chunk_text, chunkLoop_succ n _ 10 1 0 [] (by decide),
      show chunkEnd ("hi".toList) 10 0 - 1 = 1 from by decide]
    exact chunkLoop_fixed _ 10 1 1 (by decide) (by decide) n _

/-- Claim C3: the claim states that for every valid parameter pair the chunk
ranges cover `[0, len(T))` with consecutive chunks overlapping by exactly
`overlap`.  For `T = "abcd"`, `max_size = 10`, `overlap = 3` the loop never
returns any chunk list at all (it cycles at `start = 1`), so no finite
family of chunk ranges is produced and nothing covers the text. -/
theorem chunk_text_no_cover_c3 (fuel : ℕ) :
    chunk_text fuel ("abcd".toList) 10 3 = none := by
  cases fuel with
  | zero => rfl
  | succ n =>
    rw [chunk_text, chunkLoop_succ n _ 10 3 0 [] (by decide),
      show chunkEnd ("abcd".toList) 10 0 - 3 = 1 from by decide]
    exact chunkLoop_fixed _ 10 3 1 (by decide) (by decide) n _

/-- Counterexample for claim C4: at confidence `0.666` the code displays
`int(66.6) = 66` percent, while the claim's `round(0.666 * 100)` is `67`. -/
theorem format_for_display_not_round_c4 :
    (format_for_display ⟨"a", [], 333/500⟩).confidence_pct ≠
      toString (round ((333/500 : ℚ) * 100)) ++ "%" := by
  have h1 : pyInt ((333/500 : ℚ) * 100) = 66 := by
    rw [pyInt, if_pos (by norm_num)]
    rw [show ((333:ℚ)/500) * 100 = 333/5 from by norm_num]
    rw [Int.floor_eq_iff]
    norm_num
  have h2 : round ((333/500 : ℚ) * 100) = 67 := by
    rw [show ((333:ℚ)/500) * 100 = 333/5 from by norm_num, round_eq]
    rw [show (333:ℚ)/5 + 1/2 = 671/10 from by norm_num]
    rw [Int.floor_eq_iff]
    norm_num
  show toString (pyInt ((333/500 : ℚ) * 100)) ++ "%" ≠ _
  rw [h1, h2]
  decide

/-- Claim C4, amended: `format_for_display` sets the displayed confidence
percentage string to the integer truncation `int(confidence * 100)` — the
floor, for a non-negative confidence — followed by a percent sign, not to
the rounded value. -/
theorem format_for_display_pct_c4 (fr : FormattedResults)
    (h : 0 ≤ fr.confidence) :
    (format_for_display fr).confidence_pct =
      toString ⌊fr.confidence * 100⌋ ++ "%" := by
  show toString (pyInt (fr.confidence * 100)) ++ "%" = _
  rw [pyInt, if_pos (mul_nonneg h (by norm_num))]

/-- Witness for claim C4: at confidence `1/2` the displayed percentage is
`"50%"`. -/
theorem format_for_display_pct_c4_witness :
    (format_for_display ⟨"a", [], 1/2⟩).confidence_pct = "50%" := by
  rw [format_for_display_pct_c4 ⟨"a", [], 1/2⟩ (by norm_num)]
  rw [show ⌊(1/2 : ℚ) * 100⌋ = 50 from by
    rw [show (1/2 : ℚ) * 100 = 50 from by norm_num]
    exact Int.floor_intCast 50]
  rfl

/-- Bind on a successful `Except` computation. -/
theorem ok_bind {α β ε : Type} (x : α) (f : α → Except ε β) :
    (Except.ok x : Except ε α) >>= f = f x := rfl

/-- Bind on a failed `Except` computation. -/
theorem error_bind {α β ε : Type} (e : ε) (f : α → Except ε β) :
    (Except.error e : Except ε α) >>= f = .error e := rfl

/-- Map on a successful `Except` computation. -/
theorem map_ok {α β ε : Type} (f : α → β) (x : α) :
    f <$> (Except.ok x : Except ε α) = .ok (f x) := rfl

/-- Map on a failed `Except` computation. -/
theorem map_error {α β ε : Type} (f : α → β) (e : ε) :
    f <$> (Except.error e : Except ε α) = .error e := rfl

/-- Subscript reduction on a dict value. -/
theorem dict_getItem (d : List (String × PyVal)) (k : String) :
    (PyVal.dict d).getItem k =
      (match dictGet d k with
        | some v => .ok v
        | none => .error ("KeyError: " ++ k)) := rfl

/-- Membership reduction on a dict value. -/
theorem dict_contains (d : List (String × PyVal)) (k : String) :
    (PyVal.dict d).contains k = .ok (dictGet d k).isSome := rfl

/-- Numeric coercion reduction on a numeric value. -/
theorem num_toRat (q : ℚ) : (PyVal.num q).toRat = .ok q := rfl

/-- Context block on a well-formed hit: no subscript raises, so the block is
built successfully whatever the payload holds. -/
theorem contextBlock_mkHit (i : ℕ) (s : ℚ) (pl : List (String × String)) :
    ∃ t, contextBlock i (mkHit s pl) = .ok t := by
  have hpay : (mkHit s pl).getItem "payload" =
      .ok (.dict (pl.map fun p => (p.1, PyVal.str p.2))) := rfl
  have hsc : (mkHit s pl).getItem "score" = .ok (.num s) := rfl
  cases hq : dictGet (pl.map fun p => (p.1, PyVal.str p.2)) "question" with
  | none =>
    cases ha : dictGet (pl.map fun p => (p.1, PyVal.str p.2)) "answer" with
    | none =>
      exact ⟨_, by simp [contextBlock, hpay, hsc, ok_bind, map_ok,
        dict_getItem, dict_contains, num_toRat, hq, ha]; rfl⟩
    | some v2 =>
      exact ⟨_, by simp [contextBlock, hpay, hsc, ok_bind, map_ok,
        dict_getItem, dict_contains, num_toRat, hq, ha]; rfl⟩
  | some v1 =>
    cases ha : dictGet (pl.map fun p => (p.1, PyVal.str p.2)) "answer" with
    | none =>
      exact ⟨_, by simp [contextBlock, hpay, hsc, ok_bind, map_ok,
        dict_getItem, dict_contains, num_toRat, hq, ha]; rfl⟩
    | some v2 =>
      exact ⟨_, by simp [contextBlock, hpay, hsc, ok_bind, map_ok,
        dict_getItem, dict_contains, num_toRat, hq, ha]; rfl⟩

/-- Enumerated context construction succeeds on a list of well-formed hits,
from any starting index. -/
theorem contextList_mkHit (hits : List (ℚ × List (String × String))) :
    ∀ n : ℕ, ∃ ts,
      contextList n (hits.map fun h => mkHit h.1 h.2) = .ok ts := by
  induction hits with
  | nil => exact fun n => ⟨[], rfl⟩
  | cons h rest ih =>
    intro n
    obtain ⟨b, hb⟩ := contextBlock_mkHit n h.1 h.2
    obtain ⟨bs, hbs⟩ := ih (n + 1)
    exact ⟨b :: bs, by simp [contextList, hb, hbs, ok_bind]⟩

/-- The grounding context is built successfully on well-formed hits. -/
theorem buildContext_mkHit (hits : List (ℚ × List (String × String))) :
    ∃ t, buildContext (hits.map fun h => mkHit h.1 h.2) = .ok t := by
  obtain ⟨ts, hts⟩ := contextList_mkHit hits 0
  exact ⟨String.join ts, by simp [buildContext, hts, ok_bind]⟩

/-- Successful synthesis on a non-empty list of well-formed hits returns the
model answer together with the blended confidence. -/
theorem genBody_formula (ans query : String) (s : ℚ)
    (pl : List (String × String))
    (rest : List (ℚ × List (String × String))) :
    genBody (.ok ans) query (mkHit s pl :: rest.map fun p => mkHit p.1 p.2) =
      .ok (ans, s * (7/10) +
        min (((rest.length : ℚ) + 1) / 3) 1 * (3/10)) := by
  obtain ⟨t, ht⟩ := buildContext_mkHit ((s, pl) :: rest)
  have ht' : buildContext (mkHit s pl :: rest.map fun p => mkHit p.1 p.2) =
      .ok t := ht
  have hsc : (mkHit s pl).getItem "score" = .ok (.num s) := rfl
  simp only [genBody, List.isEmpty_cons, Bool.false_eq_true, if_false, ht',
    ok_bind, List.head?_cons, hsc, PyVal.toRat, map_ok, List.length_cons,
    List.length_map]
  push_cast
  rfl

/-- Completion failure on a non-empty list of well-formed hits raises inside
the body, after the context was built. -/
theorem genBody_error (e query : String) (s : ℚ)
    (pl : List (String × String))
    (rest : List (ℚ × List (String × String))) :
    genBody (.error e) query
      (mkHit s pl :: rest.map fun p => mkHit p.1 p.2) = .error e := by
  obtain ⟨t, ht⟩ := buildContext_mkHit ((s, pl) :: rest)
  have ht' : buildContext (mkHit s pl :: rest.map fun p => mkHit p.1 p.2) =
      .ok t := ht
  simp [genBody, ht', ok_bind, error_bind]

/-- Counterexample for claim C5: the code never clamps, so a single hit with
score `2.0` yields confidence `0.7 * 2 + 0.3 * min(1/3, 1) = 1.5`, outside
`[0, 1]`. -/
theorem generate_answer_confidence_above_one_c5 :
    dictGet (generate_answer_from_results (.ok "a") "q" [mkHit 2 []])
        "confidence" = some (.num (3/2)) ∧ ¬ ((3/2 : ℚ) ≤ 1) := by
  constructor
  · show dictGet (generate_answer_from_results (.ok "a") "q"
      (mkHit 2 [] :: List.map (fun p => mkHit p.1 p.2)
        ([] : List (ℚ × List (String × String))))) "confidence" = _
    rw [generate_answer_from_results, genBody_formula]
    have : (2 : ℚ) * (7/10) +
        min ((((([] : List (ℚ × List (String × String))).length : ℚ)) + 1) / 3)
          1 * (3/10) = 3/2 := by
      norm_num [min_def]
    rw [this]
    rfl
  · norm_num

/-- Claim C5, amended: on a successful synthesis over a non-empty list of
well-formed hits, the returned confidence equals
`0.7 * topHitScore + 0.3 * min(hitCount / 3, 1.0)`, and this value lies in
`[0, 1]` whenever the top score lies in `[0, 1]` (the code applies no
clamping, so nothing constrains the confidence for scores outside that
range). -/
theorem generate_answer_confidence_c5 (query ans : String) (s : ℚ)
    (pl : List (String × String))
    (rest : List (ℚ × List (String × String)))
    (h0 : 0 ≤ s) (h1 : s ≤ 1) :
    dictGet (generate_answer_from_results (.ok ans) query
        (mkHit s pl :: rest.map fun p => mkHit p.1 p.2)) "confidence" =
      some (.num (s * (7/10) +
        min (((rest.length : ℚ) + 1) / 3) 1 * (3/10))) ∧
    0 ≤ s * (7/10) + min (((rest.length : ℚ) + 1) / 3) 1 * (3/10) ∧
    s * (7/10) + min (((rest.length : ℚ) + 1) / 3) 1 * (3/10) ≤ 1 := by
  have hmin0 : (0 : ℚ) ≤ min (((rest.length : ℚ) + 1) / 3) 1 :=
    le_min (by positivity) (by norm_num)
  have hmin1 : min (((rest.length : ℚ) + 1) / 3) 1 ≤ 1 := min_le_right _ _
  refine ⟨?_, ?_, ?_⟩
  · rw [generate_answer_from_results, genBody_formula]
    rfl
  · have := mul_nonneg h0 (by norm_num : (0:ℚ) ≤ 7/10)
    have := mul_nonneg hmin0 (by norm_num : (0:ℚ) ≤ 3/10)
    linarith
  · have := mul_le_mul_of_nonneg_right h1 (by norm_num : (0:ℚ) ≤ 7/10)
    have := mul_le_mul_of_nonneg_right hmin1 (by norm_num : (0:ℚ) ≤ 3/10)
    linarith

/-- Witness for claim C5: a single hit with score `1/2` gives confidence
`0.7 * (1/2) + 0.3 * (1/3) = 9/20`, inside `[0, 1]`. -/
theorem generate_answer_confidence_c5_witness :
    dictGet (generate_answer_from_results (.ok "a") "q"
        (mkHit (1/2) [] :: List.map (fun p => mkHit p.1 p.2)
          ([] : List (ℚ × List (String × String))))) "confidence" =
      some (.num ((1/2 : ℚ) * (7/10) +
        min (((([] : List (ℚ × List (String × String))).length : ℚ) + 1) / 3)
          1 * (3/10))) ∧
    0 ≤ (1/2 : ℚ) * (7/10) +
      min (((([] : List (ℚ × List (String × String))).length : ℚ) + 1) / 3) 1 *
        (3/10) ∧
    (1/2 : ℚ) * (7/10) +
      min (((([] : List (ℚ × List (String × String))).length : ℚ) + 1) / 3) 1 *
        (3/10) ≤ 1 :=
  generate_answer_confidence_c5 "q" "a" (1/2) [] [] (by norm_num)
    (by norm_num)

/-- Counterexample for claim C6: when `extract_text` raises on the staged
file, `process_uploaded_file` re-raises without running the cleanup block,
and the staged temporary file still exists afterwards. -/
theorem process_uploaded_file_leak_c6 :
    (process_uploaded_file (.error "ExtractionError") true).1 =
        .error "ExtractionError" ∧
      (process_uploaded_file (.error "ExtractionError") true).2 = true :=
  ⟨rfl, rfl⟩

/-- Claim C6, amended: the staged temporary file is deleted on the success
path (when the deletion itself succeeds; a deletion failure is swallowed),
while on an extraction failure the exception propagates with no cleanup and
the temporary file remains. -/
theorem process_uploaded_file_cleanup_c6 (text e : String) (removeOk : Bool) :
    process_uploaded_file (.ok text) true = (.ok text, false) ∧
      (process_uploaded_file (.error e) removeOk).2 = true :=
  ⟨rfl, rfl⟩

/-- Claim C7: when the completion call fails on a non-empty list of
well-formed hits, `generate_answer_from_results` still returns a dictionary
— the failure is caught, the answer text wraps the error message and the
confidence is 0.0; nothing propagates to the caller since the embedded
function is total. -/
theorem generate_answer_model_failure_c7 (query e : String) (s : ℚ)
    (pl : List (String × String))
    (rest : List (ℚ × List (String × String))) :
    generate_answer_from_results (.error e) query
        (mkHit s pl :: rest.map fun p => mkHit p.1 p.2) =
      [("generated_answer", .str ("Error generating answer: " ++ e)),
       ("confidence", .num 0)] := by
  rw [generate_answer_from_results, genBody_error]

/-- Claim C8: on an empty hit list `generate_answer_from_results` returns
the fixed non-empty fallback message with confidence 0.0, for every outcome
`complete` of the completion model — the result does not depend on
`complete`, which formalizes that no model call is made. -/
theorem generate_answer_empty_hits_c8 (complete : Except String String)
    (query : String) :
    generate_answer_from_results complete query [] =
        [("generated_answer", .str "No relevant information found."),
         ("confidence", .num 0)] ∧
      "No relevant information found." ≠ "" :=
  ⟨rfl, by decide⟩

/-- Claim C9: with a successful embedding and a successful record-count
query, `index_document` upserts exactly one point and returns the id it
used: the caller-supplied id unchanged when present, else the reported
record count plus one. -/
theorem index_document_single_upsert_c9 (v : List ℚ) (n : ℕ)
    (metadata : List (String × String)) (doc_id : Option ℤ) :
    index_document (.ok v) (.ok n) metadata doc_id =
      .ok (doc_id.getD ((n : ℤ) + 1),
        [⟨doc_id.getD ((n : ℤ) + 1), v, metadata⟩]) := by
  cases doc_id <;> rfl

/-- Claim C10: `generate_answer_from_results` is total at its interface: for
every query, every hit list — malformed records included — and every
completion outcome it returns a dictionary carrying exactly the
`generated_answer` and `confidence` keys, either the successful synthesis or
the degraded error answer with confidence 0.0; no exception escapes, as the
whole body sits inside the `try`. -/
theorem generate_answer_total_c10 (complete : Except String String)
    (query : String) (search_results : List PyVal) :
    ∃ a c, generate_answer_from_results complete query search_results =
        [("generated_answer", .str a), ("confidence", .num c)] ∧
      (genBody complete query search_results = .ok (a, c) ∨
        (c = 0 ∧ ∃ e, genBody complete query search_results = .error e ∧
          a = "Error generating answer: " ++ e)) := by
  cases h : genBody complete query search_results with
  | ok p =>
    obtain ⟨a, c⟩ := p
    exact ⟨a, c, by rw [generate_answer_from_results, h], Or.inl rfl⟩
  | error e =>
    exact ⟨"Error generating answer: " ++ e, 0,
      by rw [generate_answer_from_results, h], Or.inr ⟨rfl, e, rfl, rfl⟩⟩

end RfpRag
